import Mathlib

/-!
Verification of the sandbox-backend startup orchestrator and metrics monitor.

The development embeds the two Python source files shallowly:

* `start_up.py` — readiness polling (`wait_for_server`), session bootstrap
  (`create_session`), connection-file discovery plus pre-warm execution
  (`execute_cmd_in_jupyter` with its inner `handle_iopub_msg`), and the
  top-level script sequencing (`run_script`, modelling `main` plus the
  `__main__` block).
* `monitor.py` — the rotating metrics log (`log_handler_emit`,
  `monitor_log`); the rotation mechanics live in the standard library's
  `RotatingFileHandler`, outside the repository, and are modelled from the
  specification's contract.

Python dictionaries produced by `resp.json()` are modelled by a small JSON
type; Python exceptions by an error type; asynchronous completion by explicit
oracles (the list of iopub events that arrive before the reply-wait resolves,
and an `Option` holding the correlated reply when it arrives in time).
-/

/-- The JSON values a control-API response can hold (`resp.json()` output).
Objects are association lists; a well-formed response has no duplicate keys
and lookup takes the first match, as a Python `dict` would. -/
inductive Json where
  | null
  | bool (b : Bool)
  | num (n : Int)
  | str (s : String)
  | arr (elems : List Json)
  | obj (fields : List (String × Json))

/-- Python exceptions that the embedded code can raise. -/
inductive PyError where
  /-- Subscript `d[k]` on a dict without key `k`. -/
  | keyError (k : String)
  /-- subscripting a non-dict, or `f.write` of a non-string. -/
  | typeError
  /-- Statement `raise Exception(msg)`. -/
  | exceptionMsg (msg : String)
  /-- a failed `assert`. -/
  | assertionError
  /-- Call `client._recv_reply` exceeding its timeout. -/
  | timeoutError
deriving Repr, DecidableEq

/-- First-match lookup in an association list (Python `dict` access for
well-formed, duplicate-free objects). -/
def lookupField : List (String × Json) → String → Option Json
  | [], _ => none
  | (k, v) :: rest, key => if k = key then some v else lookupField rest key

/-- Python subscript `j[key]`: `KeyError` when the key is absent,
`TypeError` when `j` is not a dict. -/
def pyGetItem (j : Json) (key : String) : Except PyError Json :=
  match j with
  | Json.obj fields =>
      match lookupField fields key with
      | some v => Except.ok v
      | none => Except.error (PyError.keyError key)
  | _ => Except.error PyError.typeError

mutual
/-- Serialization of a JSON value, as `json.dump` writes it (string escaping
inside literals is not modelled; the orchestrator never produces strings
needing escapes). The `f"... {session_info} ..."` interpolation of the raw
response body is modelled with the same serialization. -/
def jsonDumps : Json → String
  | Json.null => "null"
  | Json.bool true => "true"
  | Json.bool false => "false"
  | Json.num n => toString n
  | Json.str s => "\"" ++ s ++ "\""
  | Json.arr elems => "[" ++ jsonDumpsElems elems ++ "]"
  | Json.obj fields => "\x7b" ++ jsonDumpsFields fields ++ "\x7d"

/-- Comma-separated serialization of array elements. -/
def jsonDumpsElems : List Json → String
  | [] => ""
  | [j] => jsonDumps j
  | j :: rest => jsonDumps j ++ ", " ++ jsonDumpsElems rest

/-- Comma-separated serialization of object fields. -/
def jsonDumpsFields : List (String × Json) → String
  | [] => ""
  | [(k, v)] => "\"" ++ k ++ "\": " ++ jsonDumps v
  | (k, v) :: rest => "\"" ++ k ++ "\": " ++ jsonDumps v ++ ", " ++ jsonDumpsFields rest
end

/-- Value of `os.path.expanduser("~")`: the home directory of the sandbox user. -/
def SESSION_PATH : String := "/root"

/-- A file written by the orchestrator: target path and content. -/
structure FileWrite where
  path : String
  content : String
deriving Repr, DecidableEq

/-- Path `os.path.join(SESSION_PATH, ".jupyter", "kernel_id")`. -/
def kernel_id_path : String := SESSION_PATH ++ "/.jupyter/kernel_id"

/-- Path `os.path.join(SESSION_PATH, ".jupyter", ".session_info")`. -/
def session_info_path : String := SESSION_PATH ++ "/.jupyter/.session_info"

/-- The message of the exception raised when the kernel execution state is
not `"starting"`: `f"error creating kernel: {session_info} {status_code}"`. -/
def create_kernel_error_msg (session_info : Json) (status_code : Nat) : String :=
  "error creating kernel: " ++ (jsonDumps session_info ++ (" " ++ toString status_code))

/-- Function `create_session`, as a function of the parsed response body and HTTP
status of `POST /api/sessions`. The result pairs the list of file writes
performed (in order) with the returned session info or the raised exception;
the source accesses `session_info["kernel"]["id"]` and then
`["execution_state"]`, checks the state, and only afterwards opens and writes
the two files, so every raise before the writes leaves the write list empty.
`open(..., "w")` truncates before `f.write(kernel_id)` can fail on a
non-string id, which the last branch records. -/
def create_session (session_info : Json) (status_code : Nat) :
    List FileWrite × Except PyError Json :=
  match pyGetItem session_info "kernel" with
  | Except.error e => ([], Except.error e)
  | Except.ok kernel =>
    match pyGetItem kernel "id" with
    | Except.error e => ([], Except.error e)
    | Except.ok kernel_id =>
      match pyGetItem kernel "execution_state" with
      | Except.error e => ([], Except.error e)
      | Except.ok exec_state =>
        match exec_state with
        | Json.str "starting" =>
          match kernel_id with
          | Json.str kid =>
              ([⟨kernel_id_path, kid⟩, ⟨session_info_path, jsonDumps session_info⟩],
               Except.ok session_info)
          | _ => ([⟨kernel_id_path, ""⟩], Except.error PyError.typeError)
        | _ =>
          ([], Except.error (PyError.exceptionMsg
            (create_kernel_error_msg session_info status_code)))

example :
    create_session (Json.obj [("kernel", Json.obj
      [("id", Json.str "abc123"), ("execution_state", Json.str "starting")])]) 201 =
    ([⟨kernel_id_path, "abc123"⟩,
      ⟨session_info_path, jsonDumps (Json.obj [("kernel", Json.obj
        [("id", Json.str "abc123"), ("execution_state", Json.str "starting")])])⟩],
     Except.ok (Json.obj [("kernel", Json.obj
      [("id", Json.str "abc123"), ("execution_state", Json.str "starting")])])) := rfl

example :
    create_session (Json.obj [("kernel", Json.obj
      [("execution_state", Json.str "idle")])]) 201 =
    ([], Except.error (PyError.keyError "id")) := rfl

/-! ### Readiness polling (`wait_for_server`) -/

/-- The outcome of one `s.get(url)` probe inside `wait_for_server`. -/
inductive ProbeResult where
  /-- the request raised (caught by `except Exception: pass`). -/
  | failure
  /-- a response was received, carrying this HTTP status code. -/
  | response (status : Nat)
deriving Repr, DecidableEq

/-- Test `if resp.status == 200: break` — the only terminal outcome of a probe.
A raised exception never reaches the comparison. -/
def probeSucceeds : ProbeResult → Bool
  | ProbeResult.failure => false
  | ProbeResult.response status => status == 200

/-- The `while True` loop of `wait_for_server`, over the sequence of probe
outcomes. `probeTime i` is the duration of the `i`-th probe, `interval` the
duration of `asyncio.sleep(0.1)` (all durations in one common time unit);
`fuel` bounds the unrolling, since the source loop has no failure exit.
Returns `(number of attempts made, elapsed time)` when a probe succeeds
within `fuel` attempts, `none` when the loop is still polling. The
diagnostic print every 20 failed attempts has no effect on the result and is
not modelled. -/
def wait_for_server_go (probes : Nat → ProbeResult) (probeTime : Nat → Nat)
    (interval : Nat) : Nat → Nat → Nat → Option (Nat × Nat)
  | 0, _, _ => none
  | fuel + 1, i, elapsed =>
      let e := elapsed + probeTime i
      if probeSucceeds (probes i) then some (i + 1, e)
      else wait_for_server_go probes probeTime interval fuel (i + 1) (e + interval)

/-- Function `wait_for_server`: run the polling loop from the first attempt with zero
elapsed time. -/
def wait_for_server (probes : Nat → ProbeResult) (probeTime : Nat → Nat)
    (interval : Nat) (fuel : Nat) : Option (Nat × Nat) :=
  wait_for_server_go probes probeTime interval fuel 0 0

/-! ### Connection discovery and pre-warm execution (`execute_cmd_in_jupyter`) -/

/-- Character-list test that `pre` is an initial segment of `cs`. -/
def startsWithChars : List Char → List Char → Bool
  | [], _ => true
  | _ :: _, [] => false
  | p :: ps, c :: cs => p == c && startsWithChars ps cs

/-- Whether a file name matches the glob pattern `kernel-*.json` used on the
runtime directory: the name begins with `kernel-` and ends with `.json`
(`*` matches any, possibly empty, character sequence; the two fixed parts
cannot overlap, so the two tests characterise the glob). -/
def matchesKernelGlob (name : String) : Bool :=
  startsWithChars "kernel-".data name.data &&
  startsWithChars ".json".data.reverse name.data.reverse

/-- Call `glob.glob(os.path.join(runtime_dir, "kernel-*.json"))`: the files of the
runtime directory matching the kernel-connection pattern. -/
def glob_kernel_connection_files (runtime_dir : List String) : List String :=
  runtime_dir.filter matchesKernelGlob

/-- Connection discovery as performed at the top of `execute_cmd_in_jupyter`:
`assert len(connection_files) == 1` followed by `connection_files[0]`. -/
def locate_connection_file (runtime_dir : List String) : Except PyError String :=
  let connection_files := glob_kernel_connection_files runtime_dir
  match connection_files with
  | [f] => Except.ok f
  | _ => Except.error PyError.assertionError

/-- A side-channel message received from the iopub channel. -/
structure IopubMsg where
  content : String
deriving Repr, DecidableEq

/-- The correlated execute reply received from the shell channel. -/
structure Reply where
  content : String
deriving Repr, DecidableEq

/-- Coroutine `handle_iopub_msg`: `await client.get_iopub_msg()` once, print it, and
return. Input: the iopub messages that arrive while the reply-wait is
pending, in arrival order. Output: the messages the task consumed, and
whether its coroutine ran to completion on its own. With no message it stays
suspended in the single `await`; with at least one it consumes exactly the
first and completes — there is no loop. -/
def handle_iopub_msg (iopub : List IopubMsg) : List IopubMsg × Bool :=
  match iopub with
  | [] => ([], false)
  | e :: _ => ([e], true)

/-- The fate of the drain task `t = asyncio.create_task(handle_iopub_msg())`. -/
structure DrainState where
  /-- the task was created. -/
  started : Bool
  /-- iopub messages it received and printed. -/
  consumed : List IopubMsg
  /-- its coroutine completed on its own. -/
  finished : Bool
  /-- Call `t.cancel()` was executed. -/
  cancelRequested : Bool
deriving Repr, DecidableEq

/-- Background drain work is leaked when the task was started but neither
completed nor had its cancellation requested when the enclosing coroutine
returned or raised. -/
def drainLeaked (d : DrainState) : Bool :=
  d.started && !d.finished && !d.cancelRequested

/-- Function `execute_cmd_in_jupyter`, as a function of the runtime-directory listing
and two oracles for the asynchronous environment: the iopub messages arriving
before the reply-wait resolves, and `some reply` when the correlated reply
arrives within the 60 s timeout of `client._recv_reply` (`none` when it does
not). Returns the value of `reply` (or the propagated exception) together
with the drain task's fate. Line structure of the source: the `assert` on
the glob result precedes channel setup; `t.cancel()` is the last statement
and only runs when `await client._recv_reply(...)` returns normally — on
timeout the `TimeoutError` propagates first, so the branch for `none` leaves
`cancelRequested := false`. -/
def execute_cmd_in_jupyter (runtime_dir : List String) (iopub : List IopubMsg)
    (reply? : Option Reply) : Except PyError Reply × DrainState :=
  match locate_connection_file runtime_dir with
  | Except.error e => (Except.error e, ⟨false, [], false, false⟩)
  | Except.ok _connection_file =>
    let drained := handle_iopub_msg iopub
    match reply? with
    | some reply => (Except.ok reply, ⟨true, drained.1, drained.2, true⟩)
    | none => (Except.error PyError.timeoutError, ⟨true, drained.1, drained.2, false⟩)

/-! ### The orchestrator (`main` plus the `__main__` block) -/

/-- The trace of the whole script: the top-level statements that completed,
in order, and the final outcome (`Except.ok ()` for a clean exit,
`Except.error e` for an uncaught exception terminating the process). -/
structure ScriptResult where
  steps : List String
  outcome : Except PyError Unit
deriving Repr

/-- The script: `p = subprocess.Popen(["jupyter", "server", ...],
start_new_session=True)`, then `asyncio.run(main())`, then `p.wait()` — where
`main` awaits `wait_for_server`, `create_session` and
`execute_cmd_in_jupyter` in order inside the client session and then
`asyncio.sleep(100)`. No statement is wrapped in `try`, so the first raised
exception terminates the script before the remaining steps; in particular
`p.wait()` runs only when `main` completed without an exception. `none` when
the readiness loop is still polling after `fuel` attempts. -/
def run_script (probes : Nat → ProbeResult) (probeTime : Nat → Nat)
    (interval : Nat) (fuel : Nat) (session_response : Json) (status_code : Nat)
    (runtime_dir : List String) (iopub : List IopubMsg) (reply? : Option Reply) :
    Option ScriptResult :=
  match wait_for_server probes probeTime interval fuel with
  | none => none
  | some _ =>
    match create_session session_response status_code with
    | (_, Except.error e) => some ⟨["popen", "wait_for_server"], Except.error e⟩
    | (_, Except.ok _session_info) =>
      match execute_cmd_in_jupyter runtime_dir iopub reply? with
      | (Except.error e, _) =>
          some ⟨["popen", "wait_for_server", "create_session"], Except.error e⟩
      | (Except.ok _, _) =>
          some ⟨["popen", "wait_for_server", "create_session",
                 "execute_cmd_in_jupyter", "sleep_100", "p_wait"], Except.ok ()⟩

/-! ### The rotating metrics log (`monitor.py`) -/

/-- Constant `MAX_MB = 200`. -/
def MAX_MB : Nat := 200

/-- Value `maxBytes=MAX_MB * 1024 * 1024` passed to the rotating handler. -/
def metrics_maxBytes : Nat := MAX_MB * 1024 * 1024

/-- Value `backupCount=2` passed to the rotating handler. -/
def metrics_backupCount : Nat := 2

/-- The observable state of the rotating log: byte size of the active file,
byte sizes of the backup files (`.1` first), and how many rollovers have
happened. -/
structure RotatingLogState where
  currentSize : Nat
  backups : List Nat
  rollovers : Nat
deriving Repr, DecidableEq

/-- Modelled from the spec: the size-capped rotation performed by the
standard library's `RotatingFileHandler` (configured in `monitor.py` but
implemented outside the repository) — "Append-only; rotated when the backing
log exceeds a fixed size, keeping a bounded number of prior rotations".
Emitting a record of `recLen` bytes (serialized sample plus terminator)
first rolls over when it would not fit in the active file under `maxBytes`:
each backup shifts one slot further, any backup beyond `backupCount` is
dropped, and the record starts the fresh active file; otherwise the record
is appended. -/
def log_handler_emit (maxBytes backupCount : Nat) (st : RotatingLogState)
    (recLen : Nat) : RotatingLogState :=
  if 0 < maxBytes ∧ maxBytes ≤ st.currentSize + recLen then
    { currentSize := recLen,
      backups := (st.currentSize :: st.backups).take backupCount,
      rollovers := st.rollovers + 1 }
  else
    { st with currentSize := st.currentSize + recLen }

/-- The metrics logger after the monitor loop has appended the given
serialized samples (by byte length, in order) to an initially empty log,
with the configuration of `monitor.py`. -/
def monitor_log (records : List Nat) : RotatingLogState :=
  records.foldl (log_handler_emit metrics_maxBytes metrics_backupCount) ⟨0, [], 0⟩

/-! ## Shared concrete inputs -/

/-- A well-formed session-creation response: kernel `abc123` in state
`"starting"`. -/
def sample_session_response : Json :=
  Json.obj [("kernel", Json.obj
    [("id", Json.str "abc123"), ("execution_state", Json.str "starting")])]

/-- A response whose kernel object lacks the `id` field and is not in state
`"starting"`. -/
def missing_id_response : Json :=
  Json.obj [("kernel", Json.obj [("execution_state", Json.str "idle")])]

/-! ## Claims -/

/-- C6: for every runtime directory, connection discovery fails when no file
matches the `kernel-*.json` glob, returns the single matching file's path
when exactly one matches, and fails when two or more match. -/
theorem locate_connection_file_cases (runtime_dir : List String) :
    (glob_kernel_connection_files runtime_dir = [] →
      locate_connection_file runtime_dir = Except.error PyError.assertionError) ∧
    (∀ p : String, glob_kernel_connection_files runtime_dir = [p] →
      locate_connection_file runtime_dir = Except.ok p) ∧
    (2 ≤ (glob_kernel_connection_files runtime_dir).length →
      locate_connection_file runtime_dir = Except.error PyError.assertionError) := by
  refine ⟨fun h => ?_, fun p h => ?_, fun h => ?_⟩
  · simp [locate_connection_file, h]
  · simp [locate_connection_file, h]
  · unfold locate_connection_file
    rcases hg : glob_kernel_connection_files runtime_dir with _ | ⟨a, _ | ⟨b, t⟩⟩
    · rfl
    · rw [hg] at h; simp at h
    · rfl

/-- Witness for C6 at match counts 0, 1 (among non-matching neighbours),
2 and 5. -/
theorem locate_connection_file_cases_witness :
    locate_connection_file [] = Except.error PyError.assertionError ∧
    locate_connection_file ["notes.txt", "kernel-ab12.json", "kernel.json"] =
      Except.ok "kernel-ab12.json" ∧
    locate_connection_file ["kernel-a.json", "kernel-b.json"] =
      Except.error PyError.assertionError ∧
    locate_connection_file
      ["kernel-1.json", "kernel-2.json", "kernel-3.json", "kernel-4.json",
       "kernel-5.json"] = Except.error PyError.assertionError :=
  ⟨(locate_connection_file_cases []).1 rfl,
   (locate_connection_file_cases _).2.1 "kernel-ab12.json" (by decide),
   (locate_connection_file_cases _).2.2 (by decide),
   (locate_connection_file_cases _).2.2 (by decide)⟩

/-- C8: for every well-formed session-creation response whose kernel
execution state equals `"starting"`, `create_session` writes the extracted
kernel id to the kernel-id file, writes the full response body to the
session-info file, and returns the parsed descriptor; the persisted kernel
id equals the response's `kernel.id` field. -/
theorem create_session_success (resp kernel : Json) (kid : String)
    (status_code : Nat)
    (hk : pyGetItem resp "kernel" = Except.ok kernel)
    (hid : pyGetItem kernel "id" = Except.ok (Json.str kid))
    (hst : pyGetItem kernel "execution_state" = Except.ok (Json.str "starting")) :
    create_session resp status_code =
      ([⟨kernel_id_path, kid⟩, ⟨session_info_path, jsonDumps resp⟩],
       Except.ok resp) := by
  simp only [create_session, hk, hid, hst]

/-- Witness for C8: the response with `kernel.id="abc123"` and
`execution_state="starting"` persists kernel id `"abc123"`. -/
theorem create_session_success_witness :
    create_session sample_session_response 201 =
      ([⟨kernel_id_path, "abc123"⟩,
        ⟨session_info_path, jsonDumps sample_session_response⟩],
       Except.ok sample_session_response) :=
  create_session_success sample_session_response
    (Json.obj [("id", Json.str "abc123"), ("execution_state", Json.str "starting")])
    "abc123" 201 rfl rfl rfl

/-- C10: whenever `create_session` fails because a kernel field is missing or
the kernel execution state is not `"starting"` (every failure except the
late `TypeError` of `f.write` on a non-string id), no file has been written:
both writes come after the validation. -/
theorem create_session_error_writes_nothing (resp : Json) (status_code : Nat)
    (e : PyError) (hne : e ≠ PyError.typeError) :
    (create_session resp status_code).2 = Except.error e →
    (create_session resp status_code).1 = [] := by
  unfold create_session
  repeat' split
  all_goals intro h
  all_goals first
    | rfl
    | exact absurd (Except.error.inj h).symm hne
    | exact Except.noConfusion h

/-- Witness for C10: the response missing `kernel.id` fails with a
`KeyError` and leaves the write list empty. -/
theorem create_session_error_writes_nothing_witness :
    (create_session missing_id_response 503).1 = [] :=
  create_session_error_writes_nothing missing_id_response 503
    (PyError.keyError "id") (by decide) rfl

/-- Stated from the spec, for comparison with `wait_for_server`: "any
reachable response counts as ready" — a probe that receives a response with
any status code terminates the polling loop at that attempt. -/
def anyReachableResponseTerminates : Prop :=
  ∀ (probes : Nat → ProbeResult) (probeTime : Nat → Nat)
    (interval fuel s : Nat),
    probes 0 = ProbeResult.response s → 1 ≤ fuel →
    ∃ d, wait_for_server probes probeTime interval fuel = some (1, d)

/-- C5 counterexample: a reachable `503` response on the first probe does not
terminate the loop — with `503` then `200` the loop returns only at the
second attempt. -/
theorem wait_for_server_reachable_response_not_terminal :
    ¬ anyReachableResponseTerminates := by
  intro hclaim
  obtain ⟨d, hd⟩ := hclaim
    (fun i => if i = 0 then ProbeResult.response 503 else ProbeResult.response 200)
    (fun _ => 0) 1 2 503 rfl (by omega)
  simp [wait_for_server, wait_for_server_go, probeSucceeds] at hd

/-- C5 amended: a probe terminates the polling loop exactly when its response
has status `200`; a reachable response with any other status continues
polling (after the sleep) just as a transport error does. -/
theorem wait_for_server_step_only_200 (probes : Nat → ProbeResult)
    (probeTime : Nat → Nat) (interval fuel i elapsed : Nat) :
    (probes i = ProbeResult.response 200 →
      wait_for_server_go probes probeTime interval (fuel + 1) i elapsed =
        some (i + 1, elapsed + probeTime i)) ∧
    (probes i ≠ ProbeResult.response 200 →
      wait_for_server_go probes probeTime interval (fuel + 1) i elapsed =
        wait_for_server_go probes probeTime interval fuel (i + 1)
          (elapsed + probeTime i + interval)) := by
  constructor
  · intro h
    simp [wait_for_server_go, h, probeSucceeds]
  · intro h
    have hf : probeSucceeds (probes i) = false := by
      cases hp : probes i with
      | failure => rfl
      | response s =>
        have hs : s ≠ 200 := fun hs => h (by rw [hp, hs])
        simp [probeSucceeds, hs]
    simp [wait_for_server_go, hf]

/-- Witness for the amended C5: a `200` response at attempt 0 is terminal; a
`503` response at attempt 0 makes the loop recurse. -/
theorem wait_for_server_step_only_200_witness :
    wait_for_server_go (fun _ => ProbeResult.response 200) (fun _ => 3) 5 1 0 0 =
      some (1, 3) ∧
    wait_for_server_go (fun _ => ProbeResult.response 503) (fun _ => 3) 5 1 0 0 =
      wait_for_server_go (fun _ => ProbeResult.response 503) (fun _ => 3) 5 0 1 8 :=
  ⟨(wait_for_server_step_only_200 (fun _ => ProbeResult.response 200)
      (fun _ => 3) 5 0 0 0).1 rfl,
   (wait_for_server_step_only_200 (fun _ => ProbeResult.response 503)
      (fun _ => 3) 5 0 0 0).2 (by simp)⟩

/-- Helper for C7: starting the polling loop at attempt `start` when the
next `n` probes fail and probe `start + n` succeeds, the loop returns
attempt count `start + n + 1` and an elapsed time of at least the `n`
sleeps taken after the failed attempts. -/
theorem wait_for_server_go_first_success (probes : Nat → ProbeResult)
    (probeTime : Nat → Nat) (interval : Nat) :
    ∀ (n start elapsed fuel : Nat),
      (∀ j, j < n → probeSucceeds (probes (start + j)) = false) →
      probeSucceeds (probes (start + n)) = true →
      n < fuel →
      ∃ d, wait_for_server_go probes probeTime interval fuel start elapsed =
             some (start + n + 1, d) ∧ elapsed + n * interval ≤ d := by
  intro n
  induction n with
  | zero =>
    intro start elapsed fuel hfail hsucc hfuel
    match fuel, hfuel with
    | fuel + 1, _ =>
      refine ⟨elapsed + probeTime start, ?_, by omega⟩
      rw [Nat.add_zero] at hsucc
      simp [wait_for_server_go, hsucc]
  | succ n ih =>
    intro start elapsed fuel hfail hsucc hfuel
    match fuel, hfuel with
    | fuel + 1, hfuel =>
      have h0 : probeSucceeds (probes start) = false := by
        have := hfail 0 (Nat.succ_pos n)
        rwa [Nat.add_zero] at this
      have step :
          wait_for_server_go probes probeTime interval (fuel + 1) start elapsed =
            wait_for_server_go probes probeTime interval fuel (start + 1)
              (elapsed + probeTime start + interval) := by
        simp [wait_for_server_go, h0]
      obtain ⟨d, hd, hle⟩ := ih (start + 1) (elapsed + probeTime start + interval)
        fuel
        (fun j hj => by
          have := hfail (j + 1) (by omega)
          rwa [show start + (j + 1) = start + 1 + j by omega] at this)
        (by rwa [show start + 1 + n = start + (n + 1) by omega])
        (by omega)
      refine ⟨d, ?_, ?_⟩
      · have harg : start + 1 + n + 1 = start + (n + 1) + 1 := by omega
        rw [step, ← harg]
        exact hd
      · have hmul : (n + 1) * interval = n * interval + interval :=
          Nat.succ_mul n interval
        rw [hmul]
        omega

/-- C7: for every probe sequence whose `N`-th attempt is the first to
succeed, `wait_for_server` returns only after exactly `N` attempts, and the
elapsed duration is at least `(N-1)` times the poll interval — one sleep
after each of the `N-1` failed attempts and none after the successful one. -/
theorem wait_for_server_first_success (probes : Nat → ProbeResult)
    (probeTime : Nat → Nat) (interval N fuel : Nat) (hN : 1 ≤ N)
    (hfail : ∀ i, i + 1 < N → probeSucceeds (probes i) = false)
    (hsucc : probeSucceeds (probes (N - 1)) = true)
    (hfuel : N ≤ fuel) :
    ∃ d, wait_for_server probes probeTime interval fuel = some (N, d) ∧
      (N - 1) * interval ≤ d := by
  obtain ⟨d, hd, hle⟩ :=
    wait_for_server_go_first_success probes probeTime interval (N - 1) 0 0 fuel
      (fun j hj => by
        have := hfail j (by omega)
        rwa [Nat.zero_add])
      (by rwa [Nat.zero_add])
      (by omega)
  refine ⟨d, ?_, by omega⟩
  rw [wait_for_server, hd]
  congr 2
  omega

/-- Witness for C7: with two failures then a success, the loop returns after
exactly 3 attempts with elapsed time at least twice the interval. -/
theorem wait_for_server_first_success_witness :
    ∃ d, wait_for_server
        (fun i => if i < 2 then ProbeResult.failure else ProbeResult.response 200)
        (fun _ => 1) 7 5 = some (3, d) ∧ 2 * 7 ≤ d := by
  have h := wait_for_server_first_success
    (fun i => if i < 2 then ProbeResult.failure else ProbeResult.response 200)
    (fun _ => 1) 7 3 5 (by omega)
    (fun i hi => by
      have h2 : i < 2 := by omega
      simp [h2, probeSucceeds])
    (by norm_num [probeSucceeds])
    (by omega)
  simpa using h

/-- C1 counterexample: with a single connection file, no iopub traffic and no
correlated reply within the timeout, `execute_cmd_in_jupyter` propagates
`TimeoutError` without ever reaching `t.cancel()`: the drain task is not
cancelled and its background work is leaked. -/
theorem execute_timeout_cancel_skipped :
    execute_cmd_in_jupyter ["kernel-1.json"] [] none =
      (Except.error PyError.timeoutError,
       ⟨true, [], false, false⟩) ∧
    drainLeaked ⟨true, [], false, false⟩ = true :=
  ⟨rfl, rfl⟩

/-- C1 amended: the drain task's cancellation is requested exactly when the
correlated reply arrives within the timeout; when the reply-wait times out,
the function propagates `TimeoutError` and the started drain task is never
cancelled (so its work is leaked whenever it has not already finished). -/
theorem execute_cancel_iff_reply (runtime_dir : List String)
    (iopub : List IopubMsg) (reply? : Option Reply) (f : String)
    (h : glob_kernel_connection_files runtime_dir = [f]) :
    (execute_cmd_in_jupyter runtime_dir iopub reply?).2.cancelRequested =
      reply?.isSome ∧
    (reply? = none →
      (execute_cmd_in_jupyter runtime_dir iopub reply?).1 =
        Except.error PyError.timeoutError ∧
      (execute_cmd_in_jupyter runtime_dir iopub reply?).2.started = true ∧
      drainLeaked (execute_cmd_in_jupyter runtime_dir iopub reply?).2 =
        !(execute_cmd_in_jupyter runtime_dir iopub reply?).2.finished) := by
  have hloc : locate_connection_file runtime_dir = Except.ok f := by
    simp [locate_connection_file, h]
  cases reply? with
  | none => simp [execute_cmd_in_jupyter, hloc, drainLeaked]
  | some r => simp [execute_cmd_in_jupyter, hloc]

/-- Witness for the amended C1: one connection file, one iopub event, a reply
present in time versus absent. -/
theorem execute_cancel_iff_reply_witness :
    (execute_cmd_in_jupyter ["kernel-1.json"] [⟨"status:busy"⟩]
        (some ⟨"ok"⟩)).2.cancelRequested = (some (⟨"ok"⟩ : Reply)).isSome ∧
    (execute_cmd_in_jupyter ["kernel-1.json"] [⟨"status:busy"⟩]
        none).1 = Except.error PyError.timeoutError :=
  ⟨(execute_cancel_iff_reply ["kernel-1.json"] [⟨"status:busy"⟩]
      (some ⟨"ok"⟩) "kernel-1.json" (by decide)).1,
   ((execute_cancel_iff_reply ["kernel-1.json"] [⟨"status:busy"⟩]
      none "kernel-1.json" (by decide)).2 rfl).1⟩

/-- C3 counterexample: of two iopub events arriving before the reply, the
drain task receives only the first and then completes on its own — it is not
a loop that runs until externally cancelled. In the timeout case it has
likewise finished by itself although no cancellation was ever requested. -/
theorem drain_not_repeating_cex :
    (execute_cmd_in_jupyter ["kernel-1.json"]
        [⟨"status:busy"⟩, ⟨"stream:out"⟩] (some ⟨"ok"⟩)).2.consumed =
      [⟨"status:busy"⟩] ∧
    ([⟨"status:busy"⟩] : List IopubMsg) ≠ [⟨"status:busy"⟩, ⟨"stream:out"⟩] ∧
    (execute_cmd_in_jupyter ["kernel-1.json"]
        [⟨"status:busy"⟩, ⟨"stream:out"⟩] none).2 =
      ⟨true, [⟨"status:busy"⟩], true, false⟩ :=
  ⟨rfl, by decide, rfl⟩

/-- C3 amended: the drain task consumes exactly the first iopub event when
any arrives (and none otherwise), and the correlated reply produced by
`execute_cmd_in_jupyter` is the same whatever iopub events arrive — zero,
one, or many. -/
theorem drain_single_event_reply_independent (runtime_dir : List String)
    (iopub iopub2 : List IopubMsg) (reply? : Option Reply) (f : String)
    (h : glob_kernel_connection_files runtime_dir = [f]) :
    (execute_cmd_in_jupyter runtime_dir iopub reply?).2.consumed =
      iopub.take 1 ∧
    (execute_cmd_in_jupyter runtime_dir iopub reply?).1 =
      (execute_cmd_in_jupyter runtime_dir iopub2 reply?).1 := by
  have hloc : locate_connection_file runtime_dir = Except.ok f := by
    simp [locate_connection_file, h]
  constructor
  · cases iopub <;> cases reply? <;>
      simp [execute_cmd_in_jupyter, hloc, handle_iopub_msg, List.take]
  · cases reply? <;> simp [execute_cmd_in_jupyter, hloc]

/-- Witness for the amended C3: a reply that arrives before any iopub event
and one that arrives after two produce the same correlated reply. -/
theorem drain_single_event_reply_independent_witness :
    (execute_cmd_in_jupyter ["kernel-1.json"] [] (some ⟨"ok"⟩)).2.consumed =
      ([] : List IopubMsg).take 1 ∧
    (execute_cmd_in_jupyter ["kernel-1.json"] [] (some ⟨"ok"⟩)).1 =
      (execute_cmd_in_jupyter ["kernel-1.json"]
        [⟨"status:busy"⟩, ⟨"stream:out"⟩] (some ⟨"ok"⟩)).1 :=
  drain_single_event_reply_independent ["kernel-1.json"] []
    [⟨"status:busy"⟩, ⟨"stream:out"⟩] (some ⟨"ok"⟩) "kernel-1.json" (by decide)

/-- Stated from the spec, for comparison with `create_session`: the failure
the spec calls `ProtocolViolation` — a raised exception whose message
contains both the raw response body and the HTTP status code. -/
def failsWithProtocolViolation (resp : Json) (status_code : Nat) : Prop :=
  ∃ msg : String,
    (create_session resp status_code).2 =
      Except.error (PyError.exceptionMsg msg) ∧
    (∃ a b, msg = a ++ (jsonDumps resp ++ b)) ∧
    (∃ a b, msg = a ++ (toString status_code ++ b))

/-- C4 counterexample: a response whose kernel execution state is `"idle"`
(not `"starting"`) but whose kernel object lacks the `id` field fails with a
plain `KeyError` — `session_info["kernel"]["id"]` is evaluated before the
state check — not with the exception carrying the raw body and status. -/
theorem create_session_missing_id_not_protocol_violation :
    (create_session missing_id_response 503).2 =
      Except.error (PyError.keyError "id") ∧
    ¬ failsWithProtocolViolation missing_id_response 503 := by
  refine ⟨rfl, ?_⟩
  rintro ⟨msg, hmsg, -, -⟩
  rw [show (create_session missing_id_response 503).2 =
      Except.error (PyError.keyError "id") from rfl] at hmsg
  simp at hmsg

/-- C4 amended: for every response whose kernel object does contain the `id`
and `execution_state` fields with the latter not the literal `"starting"`,
`create_session` fails with the exception whose message carries the raw
response body and the HTTP status code; when `kernel.id` is missing the
failure is a bare `KeyError` instead. -/
theorem create_session_nonstarting_fails (resp kernel kernel_id exec_state : Json)
    (status_code : Nat)
    (hk : pyGetItem resp "kernel" = Except.ok kernel)
    (hid : pyGetItem kernel "id" = Except.ok kernel_id)
    (hst : pyGetItem kernel "execution_state" = Except.ok exec_state)
    (hne : exec_state ≠ Json.str "starting") :
    (create_session resp status_code).2 =
      Except.error (PyError.exceptionMsg
        (create_kernel_error_msg resp status_code)) ∧
    failsWithProtocolViolation resp status_code := by
  have h2 : (create_session resp status_code).2 =
      Except.error (PyError.exceptionMsg
        (create_kernel_error_msg resp status_code)) := by
    simp only [create_session, hk, hid, hst]
  refine ⟨h2, create_kernel_error_msg resp status_code, h2, ?_, ?_⟩
  · exact ⟨"error creating kernel: ", " " ++ toString status_code, rfl⟩
  · exact ⟨"error creating kernel: " ++ jsonDumps resp ++ " ", "",
      by simp [create_kernel_error_msg, String.append_assoc, String.append_empty]⟩

/-- Witness for the amended C4: kernel id present, execution state `"idle"`. -/
theorem create_session_nonstarting_fails_witness :
    (create_session (Json.obj [("kernel", Json.obj
        [("id", Json.str "abc123"), ("execution_state", Json.str "idle")])])
      400).2 =
      Except.error (PyError.exceptionMsg
        (create_kernel_error_msg (Json.obj [("kernel", Json.obj
          [("id", Json.str "abc123"),
           ("execution_state", Json.str "idle")])]) 400)) ∧
    failsWithProtocolViolation (Json.obj [("kernel", Json.obj
      [("id", Json.str "abc123"), ("execution_state", Json.str "idle")])]) 400 :=
  create_session_nonstarting_fails
    (Json.obj [("kernel", Json.obj
      [("id", Json.str "abc123"), ("execution_state", Json.str "idle")])])
    (Json.obj [("id", Json.str "abc123"), ("execution_state", Json.str "idle")])
    (Json.str "abc123") (Json.str "idle") 400 rfl rfl rfl
    (fun h => by injection h with h2; exact absurd h2 (by decide))

/-- Stated from the spec, for comparison with `run_script`: a pre-warm
timeout is non-fatal — whenever the earlier steps succeed and the pre-warm
reply never arrives, the script still performs the hold-open sleep, waits
for the child process, and exits cleanly. -/
def prewarmTimeoutNonFatal : Prop :=
  ∀ (probes : Nat → ProbeResult) (probeTime : Nat → Nat)
    (interval fuel : Nat) (resp : Json) (status_code : Nat)
    (runtime_dir : List String) (iopub : List IopubMsg) (r : ScriptResult),
    (create_session resp status_code).2.isOk = true →
    (glob_kernel_connection_files runtime_dir).length = 1 →
    run_script probes probeTime interval fuel resp status_code runtime_dir
      iopub none = some r →
    "sleep_100" ∈ r.steps ∧ "p_wait" ∈ r.steps ∧ r.outcome = Except.ok ()

/-- C2 counterexample: with the server reachable, a valid session response
and a single connection file, a pre-warm timeout terminates the script with
the uncaught `TimeoutError`: neither the hold-open sleep nor `p.wait()`
runs, so the timeout is fatal, not a logged degraded outcome. -/
theorem script_prewarm_timeout_fatal_cex :
    run_script (fun _ => ProbeResult.response 200) (fun _ => 0) 1 1
        sample_session_response 201 ["kernel-1.json"] [] none =
      some ⟨["popen", "wait_for_server", "create_session"],
            Except.error PyError.timeoutError⟩ ∧
    ¬ prewarmTimeoutNonFatal := by
  have hrun : run_script (fun _ => ProbeResult.response 200) (fun _ => 0) 1 1
      sample_session_response 201 ["kernel-1.json"] [] none =
      some ⟨["popen", "wait_for_server", "create_session"],
            Except.error PyError.timeoutError⟩ := rfl
  refine ⟨hrun, ?_⟩
  intro hclaim
  obtain ⟨h1, -, -⟩ := hclaim (fun _ => ProbeResult.response 200) (fun _ => 0)
    1 1 sample_session_response 201 ["kernel-1.json"] [] _ rfl rfl hrun
  exact absurd h1 (by decide)

/-- C2 amended: when the pre-warm execution times out, the `TimeoutError`
propagates uncaught out of `main`: the script terminates with it after just
the launch, readiness and session steps — the hold-open sleep and the wait
on the child process never run, and nothing logs the timeout outcome. -/
theorem script_prewarm_timeout_fatal (probes : Nat → ProbeResult)
    (probeTime : Nat → Nat) (interval fuel : Nat) (resp info : Json)
    (status_code : Nat) (runtime_dir : List String) (iopub : List IopubMsg)
    (w : Nat × Nat) (f : String)
    (hw : wait_for_server probes probeTime interval fuel = some w)
    (hc : (create_session resp status_code).2 = Except.ok info)
    (hg : glob_kernel_connection_files runtime_dir = [f]) :
    run_script probes probeTime interval fuel resp status_code runtime_dir
      iopub none =
      some ⟨["popen", "wait_for_server", "create_session"],
            Except.error PyError.timeoutError⟩ := by
  have hloc : locate_connection_file runtime_dir = Except.ok f := by
    simp [locate_connection_file, hg]
  unfold run_script
  rw [hw]
  rcases hcs : create_session resp status_code with ⟨writes, res⟩
  rw [hcs] at hc
  have hres : res = Except.ok info := hc
  subst hres
  simp [execute_cmd_in_jupyter, hloc]

/-- Witness for the amended C2: the counterexample inputs satisfy all three
hypotheses. -/
theorem script_prewarm_timeout_fatal_witness :
    run_script (fun _ => ProbeResult.response 200) (fun _ => 0) 1 1
        sample_session_response 201 ["kernel-2.json"] [⟨"status:busy"⟩] none =
      some ⟨["popen", "wait_for_server", "create_session"],
            Except.error PyError.timeoutError⟩ :=
  script_prewarm_timeout_fatal (fun _ => ProbeResult.response 200) (fun _ => 0)
    1 1 sample_session_response sample_session_response 201 ["kernel-2.json"]
    [⟨"status:busy"⟩] (1, 0) "kernel-2.json" rfl rfl (by decide)

/-- Emitting one record never leaves more than `backupCount` backups when at
most that many existed before. -/
theorem log_handler_emit_backups_le (maxBytes backupCount : Nat)
    (st : RotatingLogState) (recLen : Nat)
    (h : st.backups.length ≤ backupCount) :
    (log_handler_emit maxBytes backupCount st recLen).backups.length ≤
      backupCount := by
  unfold log_handler_emit
  split
  · simp [List.length_take]
  · exact h

/-- Folding the emitter preserves the backup bound. -/
theorem monitor_foldl_backups_le (maxBytes backupCount : Nat)
    (records : List Nat) (st : RotatingLogState)
    (h : st.backups.length ≤ backupCount) :
    ((records.foldl (log_handler_emit maxBytes backupCount) st)).backups.length
      ≤ backupCount := by
  induction records generalizing st with
  | nil => simpa using h
  | cons r rs ih => exact ih _ (log_handler_emit_backups_le _ _ _ _ h)

/-- The rollover counter never decreases. -/
theorem monitor_foldl_rollovers_mono (maxBytes backupCount : Nat)
    (records : List Nat) (st : RotatingLogState) :
    st.rollovers ≤
      (records.foldl (log_handler_emit maxBytes backupCount) st).rollovers := by
  induction records generalizing st with
  | nil => simp
  | cons r rs ih =>
    refine Nat.le_trans ?_ (ih (log_handler_emit maxBytes backupCount st r))
    unfold log_handler_emit
    split <;> simp

/-- Without any rollover, every record was appended to the active file, so
its size is the cumulative sum and stayed under the cap. -/
theorem monitor_foldl_no_rollover (maxBytes backupCount : Nat)
    (records : List Nat) :
    ∀ st : RotatingLogState, 0 < maxBytes → st.currentSize < maxBytes →
    (records.foldl (log_handler_emit maxBytes backupCount) st).rollovers =
      st.rollovers →
    (records.foldl (log_handler_emit maxBytes backupCount) st).currentSize =
      st.currentSize + records.sum ∧
    (records.foldl (log_handler_emit maxBytes backupCount) st).currentSize <
      maxBytes := by
  induction records with
  | nil =>
    intro st h0 hcs hr
    exact ⟨by simp, by simpa using hcs⟩
  | cons r rs ih =>
    intro st h0 hcs hr
    rw [List.foldl_cons] at hr ⊢
    by_cases hov : maxBytes ≤ st.currentSize + r
    · exfalso
      have hstep : (log_handler_emit maxBytes backupCount st r).rollovers =
          st.rollovers + 1 := by
        unfold log_handler_emit
        rw [if_pos ⟨h0, hov⟩]
      have hmono := monitor_foldl_rollovers_mono maxBytes backupCount rs
        (log_handler_emit maxBytes backupCount st r)
      omega
    · have hstep : log_handler_emit maxBytes backupCount st r =
          { st with currentSize := st.currentSize + r } := by
        unfold log_handler_emit
        rw [if_neg (fun hc => hov hc.2)]
      rw [hstep] at hr ⊢
      obtain ⟨h1, h2⟩ :=
        ih { st with currentSize := st.currentSize + r } h0
          (by show st.currentSize + r < maxBytes; omega) hr
      refine ⟨?_, h2⟩
      rw [h1, List.sum_cons]
      show st.currentSize + r + rs.sum = st.currentSize + (r + rs.sum)
      omega

/-- C9: at every point (after any prefix of the appended samples) the
metrics log keeps at most `backupCount = 2` backup files, and once the
cumulative size of the appended samples exceeds the 200 MB cap the log has
been rotated at least once. -/
theorem monitor_log_rotation (records : List Nat) :
    (∀ n : Nat, (monitor_log (records.take n)).backups.length ≤
      metrics_backupCount) ∧
    (metrics_maxBytes < records.sum → 1 ≤ (monitor_log records).rollovers) := by
  constructor
  · intro n
    exact monitor_foldl_backups_le _ _ _ _ (by simp)
  · intro hsum
    by_contra hlt
    have h0 : (monitor_log records).rollovers = 0 := by omega
    rw [monitor_log] at h0
    obtain ⟨h1, h2⟩ := monitor_foldl_no_rollover metrics_maxBytes
      metrics_backupCount records ⟨0, [], 0⟩
      (by norm_num [metrics_maxBytes, MAX_MB])
      (by norm_num [metrics_maxBytes, MAX_MB]) h0
    rw [monitor_log] at hlt
    omega

/-- Witness for C9: a single sample one byte over the cap forces a rotation,
and the backup bound holds on the prefix. -/
theorem monitor_log_rotation_witness :
    (monitor_log ([209715201].take 1)).backups.length ≤ metrics_backupCount ∧
    1 ≤ (monitor_log [209715201]).rollovers :=
  ⟨(monitor_log_rotation [209715201]).1 1,
   (monitor_log_rotation [209715201]).2 (by norm_num [metrics_maxBytes, MAX_MB])⟩
